import Mathlib

/-!
# Verification of mpipe's resilient request layer

Shallow embedding of the retry/backoff executor (`src/rchain/chat_runtime.rs`),
the provider wire adapter (`src/rchain/openai.rs`, `src/rchain/provider.rs`),
and the configuration resolver (`src/config.rs`, `src/bin/mpask.rs`),
with theorems checking the specification's claims about them.

Machine integers are modelled as `Nat` with explicit saturation at the
Rust type's maximum where the source saturates; `f32` temperatures are
modelled as exact rationals (`Rat`), faithful for the decimal literals
used here since the `[0.0, 2.0]` containment check is exact on floats.
-/

namespace Mpipe

/-- Decidable equality for `Except`, used to evaluate the embedded
functions on concrete inputs. -/
instance instDecEqExcept {ε α : Type} [DecidableEq ε] [DecidableEq α] :
    DecidableEq (Except ε α) := fun x y =>
  match x, y with
  | .error a, .error b =>
    if h : a = b then .isTrue (by rw [h]) else .isFalse (fun c => by cases c; exact h rfl)
  | .ok a, .ok b =>
    if h : a = b then .isTrue (by rw [h]) else .isFalse (fun c => by cases c; exact h rfl)
  | .error _, .ok _ => .isFalse (fun c => by cases c)
  | .ok _, .error _ => .isFalse (fun c => by cases c)

/-- ASCII whitespace, the cases of Rust `char::is_whitespace` relevant to
the inputs modelled here. -/
def isAsciiWhitespace (c : Char) : Bool := c = ' ' ∨ c = '\t' ∨ c = '\n' ∨ c = '\r'

/-- Rust `str::trim` (kernel-reducible model over the character list). -/
def strTrim (s : String) : String :=
  String.mk (((s.toList.dropWhile isAsciiWhitespace).reverse.dropWhile isAsciiWhitespace).reverse)

/-- Rust `char::to_ascii_lowercase`. -/
def toAsciiLower (c : Char) : Char :=
  if 'A' ≤ c ∧ c ≤ 'Z' then Char.ofNat (c.toNat + 32) else c

/-- Rust `str::to_ascii_lowercase`. -/
def strLower (s : String) : String := String.mk (s.toList.map toAsciiLower)

/-- Rust `str::is_empty`. -/
def strIsEmpty (s : String) : Bool := s.toList.isEmpty

/-- The numeric value of an ASCII digit. -/
def digitVal (c : Char) : Option Nat :=
  if '0' ≤ c ∧ c ≤ '9' then some (c.toNat - 48) else none

/-- Accumulate a digit string into a number; any non-digit fails. -/
def digitsToNatAux : List Char → Nat → Option Nat
  | [], acc => some acc
  | c :: rest, acc =>
    match digitVal c with
    | some d => digitsToNatAux rest (acc * 10 + d)
    | none => none

/-- Digit-string to `Nat`, `none` on the empty string or a non-digit. -/
def strToNatOpt (s : String) : Option Nat :=
  match s.toList with
  | [] => none
  | cs => digitsToNatAux cs 0

/-- Split a character list on a separator character (like `str::split`). -/
def splitOnChar (c : Char) : List Char → List (List Char)
  | [] => [[]]
  | ch :: rest =>
    match splitOnChar c rest with
    | [] => [[]]
    | seg :: segs => if ch = c then [] :: seg :: segs else (ch :: seg) :: segs

/-- Maximum value of a Rust `u64`. -/
def u64Max : Nat := 2 ^ 64 - 1

/-- Maximum value of a Rust `u32`. -/
def u32Max : Nat := 2 ^ 32 - 1

/-- Rust `a.saturating_mul(b)` on `u64` (operands assumed in range). -/
def saturatingMulU64 (a b : Nat) : Nat := min (a * b) u64Max

/-- Rust `a.saturating_add(b)` on `u32` (operands assumed in range). -/
def saturatingAddU32 (a b : Nat) : Nat := min (a + b) u32Max

/-! ## Retry/backoff executor — `src/rchain/chat_runtime.rs` -/

namespace ChatRuntime

/-- Rust `1u64.checked_shl(attempt)`: `none` exactly when the shift amount
is at least the bit width 64; otherwise the exact power of two. -/
def checkedShlOne (attempt : Nat) : Option Nat :=
  if attempt < 64 then some (2 ^ attempt) else none

/-- `retry_delay` from `chat_runtime.rs`: factor `1u64.checked_shl(attempt)`
defaulting to `u64::MAX` on overflow, then `base_ms.saturating_mul(factor).min(30_000)`.
Result in milliseconds. -/
def retry_delay (attempt : Nat) (base_ms : Nat) : Nat :=
  let factor := (checkedShlOne attempt).getD u64Max
  min (saturatingMulU64 base_ms factor) 30000

/-- The distinguishable kinds of a `reqwest::Error`, as tested by the
predicates `is_timeout` / `is_connect` / `is_request` and friends. -/
inductive RequestErrorKind where
  | timeout
  | connect
  | request
  | redirect
  | body
  | decode
  deriving DecidableEq, Repr

/-- `is_retryable_request_error`: `err.is_timeout() || err.is_connect() || err.is_request()`. -/
def is_retryable_request_error (err : RequestErrorKind) : Bool :=
  match err with
  | .timeout => true
  | .connect => true
  | .request => true
  | _ => false

/-- Rust `StatusCode::is_server_error`: the 500..=599 range. -/
def isServerError (status : Nat) : Bool :=
  decide (500 ≤ status ∧ status ≤ 599)

/-- Rust `StatusCode::is_success`: the 200..=299 range. -/
def isSuccessStatus (status : Nat) : Bool :=
  decide (200 ≤ status ∧ status ≤ 299)

/-- `is_retryable_status`: `status == StatusCode::TOO_MANY_REQUESTS || status.is_server_error()`. -/
def is_retryable_status (status : Nat) : Bool :=
  status == 429 || isServerError status

/-- An HTTP response as seen by the executor: a status code and a body
(the body type is abstract; the wire adapter instantiates it). -/
structure HttpResponse (β : Type) where
  status : Nat
  body : β
  deriving DecidableEq, Repr

/-- `RequestFailure` from `chat_runtime.rs`. -/
inductive RequestFailure (β : Type) where
  | request (err : RequestErrorKind)
  | api (status : Nat) (body : β)
  deriving DecidableEq, Repr

/-- `RetryConfig` from `chat_runtime.rs` (`timeout_secs` is carried but
plays no role in the control flow modelled here). -/
structure RetryConfig where
  timeout_secs : Option Nat
  retries : Nat
  retry_delay_ms : Nat
  deriving DecidableEq, Repr

/-- Outcome of the retry loop: final result, the total number of HTTP
calls made, and the backoff delays slept (in order, milliseconds). -/
structure RetryOutcome (β : Type) where
  result : Except (RequestFailure β) (HttpResponse β)
  calls : Nat
  sleeps : List Nat
  deriving Repr

/-- The `loop` body of `send_chat_request_with_retry`, with the transport
abstracted as a function from the attempt index to that attempt's outcome
(`Err` models `request.send()` failing, `Ok` a received response).
`budget` counts the attempts still allowed after the current one, i.e.
`budget = max_attempts - attempt - 1`, so the source's retry condition
`attempt + 1 < max_attempts` is exactly `0 < budget`. -/
def retryLoop (transport : Nat → Except RequestErrorKind (HttpResponse β))
    (config : RetryConfig) : Nat → Nat → RetryOutcome β
  | attempt, budget =>
    match transport attempt with
    | .ok response =>
      if isSuccessStatus response.status then
        { result := .ok response, calls := attempt + 1, sleeps := [] }
      else
        match budget with
        | b + 1 =>
          if is_retryable_status response.status then
            let rest := retryLoop transport config (attempt + 1) b
            { rest with sleeps := retry_delay attempt config.retry_delay_ms :: rest.sleeps }
          else
            { result := .error (.api response.status response.body),
              calls := attempt + 1, sleeps := [] }
        | 0 =>
          { result := .error (.api response.status response.body),
            calls := attempt + 1, sleeps := [] }
    | .error source =>
      match budget with
      | b + 1 =>
        if is_retryable_request_error source then
          let rest := retryLoop transport config (attempt + 1) b
          { rest with sleeps := retry_delay attempt config.retry_delay_ms :: rest.sleeps }
        else
          { result := .error (.request source), calls := attempt + 1, sleeps := [] }
      | 0 =>
        { result := .error (.request source), calls := attempt + 1, sleeps := [] }

/-- `send_chat_request_with_retry`: `max_attempts = config.retries.saturating_add(1)`,
then the loop starting at attempt 0 with `max_attempts - 1` retries still allowed. -/
def send_chat_request_with_retry (transport : Nat → Except RequestErrorKind (HttpResponse β))
    (config : RetryConfig) : RetryOutcome β :=
  retryLoop transport config 0 (saturatingAddU32 config.retries 1 - 1)

/-- Scripted transport for the specification's retry scenario: HTTP 500 on
the first two attempts, HTTP 200 with body `"third"` from the third on. -/
def scriptTwo500ThenOk : Nat → Except RequestErrorKind (HttpResponse String) :=
  fun n => if n < 2 then .ok ⟨500, "boom"⟩ else .ok ⟨200, "third"⟩

end ChatRuntime

/-! ## Configuration file model — `src/config.rs` -/

namespace Config

/-- `ProfileConfig` from `config.rs` (the `Default` derive makes every field
`None`; `f32` temperature modelled as an exact rational). -/
structure ProfileConfig where
  provider : Option String := none
  model : Option String := none
  system : Option String := none
  temperature : Option Rat := none
  max_tokens : Option Nat := none
  timeout : Option Nat := none
  retries : Option Nat := none
  retry_delay : Option Nat := none
  output : Option String := none
  show_usage : Option Bool := none
  deriving DecidableEq, Repr

/-- `ProviderDefaultsConfig` from `config.rs`. -/
structure ProviderDefaultsConfig where
  model : Option String := none
  system : Option String := none
  temperature : Option Rat := none
  max_tokens : Option Nat := none
  timeout : Option Nat := none
  retries : Option Nat := none
  retry_delay : Option Nat := none
  output : Option String := none
  show_usage : Option Bool := none
  deriving DecidableEq, Repr

/-- `ProviderSectionConfig` from `config.rs`. -/
structure ProviderSectionConfig where
  defaults : Option ProviderDefaultsConfig := none
  deriving DecidableEq, Repr

/-- `ConfigFile` from `config.rs`; the `HashMap`s are modelled as
association lists (iteration order fixed by the list). -/
structure ConfigFile where
  profiles : Option (List (String × ProfileConfig)) := none
  providers : Option (List (String × ProviderSectionConfig)) := none
  deriving DecidableEq, Repr

/-- `normalized_provider_value` from `config.rs`: trim, ASCII-lowercase,
accept exactly "openai" and "fireworks". -/
def normalized_provider_value (raw : String) : Option String :=
  match strLower (strTrim raw) with
  | "openai" => some "openai"
  | "fireworks" => some "fireworks"
  | _ => none

/-- The distinct error cases of `config.rs` (the source formats them as
strings with the file path; the path plays no role in the logic). -/
inductive ConfigError where
  | noProfilesSection
  | profileNotFound (name : String)
  | invalidProviderSection (providerName : String)
  | invalidProfileProvider (name provider : String)
  | invalidField (sectionPath field : String)
  deriving DecidableEq, Repr

/-- `profile_from_config` from `config.rs`. -/
def profile_from_config (config : ConfigFile) (name : String) :
    Except ConfigError ProfileConfig :=
  match config.profiles with
  | none => .error .noProfilesSection
  | some profiles =>
    match profiles.lookup name with
    | some profile => .ok profile
    | none => .error (.profileNotFound name)

/-- `provider_defaults_for` from `config.rs`: first provider section whose
key normalizes to the given (already normalized) provider name. -/
def provider_defaults_for (config : ConfigFile) (provider : String) :
    Option ProviderDefaultsConfig :=
  match config.providers with
  | none => none
  | some providers =>
    providers.findSome? fun entry =>
      match normalized_provider_value entry.1 with
      | some normalized => if normalized = provider then entry.2.defaults else none
      | none => none

/-- `merge_provider_defaults` from `config.rs`: per field, the profile's
value, falling back to the provider-default bundle's; `provider` is taken
from the profile alone. -/
def merge_provider_defaults (defaults : Option ProviderDefaultsConfig)
    (profile : ProfileConfig) : ProfileConfig :=
  let d := defaults.getD {}
  { provider := profile.provider
    model := profile.model.or d.model
    system := profile.system.or d.system
    temperature := profile.temperature.or d.temperature
    max_tokens := profile.max_tokens.or d.max_tokens
    timeout := profile.timeout.or d.timeout
    retries := profile.retries.or d.retries
    retry_delay := profile.retry_delay.or d.retry_delay
    output := profile.output.or d.output
    show_usage := profile.show_usage.or d.show_usage }

/-- The field view shared by `ProfileConfig` and `ProviderDefaultsConfig`
through the `ValidatableProfileFields` trait in `config.rs`. -/
structure ValidatableFields where
  temperature : Option Rat
  max_tokens : Option Nat
  timeout : Option Nat
  retry_delay : Option Nat
  output : Option String
  deriving DecidableEq, Repr

/-- The `ValidatableProfileFields` impl for `ProfileConfig`. -/
def ProfileConfig.fieldsView (p : ProfileConfig) : ValidatableFields :=
  ⟨p.temperature, p.max_tokens, p.timeout, p.retry_delay, p.output⟩

/-- The `ValidatableProfileFields` impl for `ProviderDefaultsConfig`. -/
def ProviderDefaultsConfig.fieldsView (d : ProviderDefaultsConfig) : ValidatableFields :=
  ⟨d.temperature, d.max_tokens, d.timeout, d.retry_delay, d.output⟩

/-- `validate_profile_fields` from `config.rs`: domain checks, first
violation reported. -/
def validate_profile_fields (sectionPath : String) (fields : ValidatableFields) :
    Except ConfigError Unit := do
  match fields.temperature with
  | some value =>
    if ¬(0 ≤ value ∧ value ≤ 2) then throw (.invalidField sectionPath "temperature")
    else pure ()
  | none => pure ()
  match fields.max_tokens with
  | some value => if value = 0 then throw (.invalidField sectionPath "max_tokens") else pure ()
  | none => pure ()
  match fields.timeout with
  | some value => if value = 0 then throw (.invalidField sectionPath "timeout") else pure ()
  | none => pure ()
  match fields.retry_delay with
  | some value => if value = 0 then throw (.invalidField sectionPath "retry_delay") else pure ()
  | none => pure ()
  match fields.output with
  | some raw_output =>
    let output := strLower (strTrim raw_output)
    if output ≠ "text" ∧ output ≠ "json" then throw (.invalidField sectionPath "output")
    else pure ()
  | none => pure ()

/-- `validate_profile` from `config.rs`: provider-name domain check, then
the shared field checks. -/
def validate_profile (name : String) (profile : ProfileConfig) : Except ConfigError Unit := do
  match profile.provider with
  | some provider_raw =>
    if (normalized_provider_value provider_raw).isNone then
      throw (.invalidProfileProvider name (strLower (strTrim provider_raw)))
    else pure ()
  | none => pure ()
  validate_profile_fields ("profiles." ++ name) profile.fieldsView

/-- The provider-section loop of `validate_config_file`. -/
def validate_providers_list : List (String × ProviderSectionConfig) → Except ConfigError Unit
  | [] => .ok ()
  | (provider_name, sect) :: rest =>
    match normalized_provider_value provider_name with
    | none => .error (.invalidProviderSection provider_name)
    | some provider =>
      match sect.defaults with
      | some defaults => do
        validate_profile_fields ("providers." ++ provider ++ ".defaults") defaults.fieldsView
        validate_providers_list rest
      | none => validate_providers_list rest

/-- The profile loop of `validate_config_file`. -/
def validate_profiles_list : List (String × ProfileConfig) → Except ConfigError Unit
  | [] => .ok ()
  | (name, profile) :: rest => do
    validate_profile name profile
    validate_profiles_list rest

/-- `validate_config_file` from `config.rs`: every provider section and
every profile section is checked, regardless of which profile is wanted. -/
def validate_config_file (config : ConfigFile) : Except ConfigError Unit := do
  match config.providers with
  | some providers => validate_providers_list providers
  | none => pure ()
  match config.profiles with
  | some profiles => validate_profiles_list profiles
  | none => pure ()

/-- `load_profile` from `config.rs`, after the file has been read and the
TOML parsed (file I/O and TOML syntax are outside the model; the parsed
`ConfigFile` is the input): whole-file validation, profile lookup, then the
provider-default merge keyed by the profile's own `provider` field. -/
def load_profile (config : ConfigFile) (name : String) : Except ConfigError ProfileConfig := do
  validate_config_file config
  let profile ← profile_from_config config name
  let provider_defaults :=
    (profile.provider.bind normalized_provider_value).bind (provider_defaults_for config)
  pure (merge_provider_defaults provider_defaults profile)

end Config

/-! ## Provider registry — `src/rchain/provider.rs` -/

/-- `Provider` from `provider.rs`. -/
inductive Provider where
  | openai
  | fireworks
  deriving DecidableEq, Repr

/-- `Provider::as_str`. -/
def Provider.as_str : Provider → String
  | .openai => "openai"
  | .fireworks => "fireworks"

/-- `endpoint` from `provider.rs`. -/
def endpoint : Provider → String
  | .openai => "https://api.openai.com/v1/chat/completions"
  | .fireworks => "https://api.fireworks.ai/inference/v1/chat/completions"

/-- `api_key_env` from `provider.rs`. -/
def api_key_env : Provider → String
  | .openai => "OPENAI_API_KEY"
  | .fireworks => "FIREWORKS_API_KEY"

/-- `ChatMessage` from `provider.rs`. -/
structure ChatMessage where
  role : String
  content : String
  deriving DecidableEq, Repr

/-- `ChatMessage::system`. -/
def ChatMessage.system (content : String) : ChatMessage := ⟨"system", content⟩

/-- `ChatMessage::user`. -/
def ChatMessage.user (content : String) : ChatMessage := ⟨"user", content⟩

/-- `AskOptions` from `provider.rs`. -/
structure AskOptions where
  temperature : Option Rat := none
  max_tokens : Option Nat := none
  timeout_secs : Option Nat := none
  retries : Nat := 0
  retry_delay_ms : Nat := 500
  deriving DecidableEq, Repr

/-! ## CLI resolution — `src/bin/mpask.rs` -/

namespace Mpask

/-- The environment variables the resolver and the wire adapters consult;
`none` models an unset variable. (`MP_CONFIG`/`XDG_CONFIG_HOME`/`HOME` pick
the config file path, which is outside the model: the parsed `ConfigFile`
is passed in directly.) -/
structure Env where
  mp_provider : Option String := none
  mp_model : Option String := none
  mp_temperature : Option String := none
  mp_max_tokens : Option String := none
  mp_timeout : Option String := none
  mp_retries : Option String := none
  mp_retry_delay : Option String := none
  openai_api_key : Option String := none
  fireworks_api_key : Option String := none
  deriving DecidableEq, Repr

/-- Rust `str::parse` into an unsigned integer type with maximum `maxVal`,
modelled for plain digit strings (a non-digit or out-of-range input fails). -/
def parseNatInRange (s : String) (maxVal : Nat) : Option Nat :=
  (Mpipe.strToNatOpt s).bind fun n => if n ≤ maxVal then some n else none

/-- Rust `str::parse::<f32>` modelled on plain decimal literals
(optional sign, digits, optional fraction); the numeric value is kept
exact as a rational (`sign * (n*10^k + f) / 10^k`), which agrees with f32
on the literals used here. -/
def parseDecimal (s : String) : Option Rat :=
  let signed : Bool × List Char :=
    match s.toList with
    | '-' :: rest => (true, rest)
    | '+' :: rest => (false, rest)
    | chars => (false, chars)
  let build : Nat → Nat → Rat := fun num den =>
    mkRat (if signed.1 then -(num : Int) else (num : Int)) den
  let natOf : List Char → Option Nat := fun cs =>
    match cs with
    | [] => none
    | _ => Mpipe.digitsToNatAux cs 0
  match Mpipe.splitOnChar '.' signed.2 with
  | [intPart] => (natOf intPart).map fun n => build n 1
  | [intPart, fracPart] =>
    match natOf intPart, natOf fracPart with
    | some n, some f =>
      some (build (n * 10 ^ fracPart.length + f) (10 ^ fracPart.length))
    | _, _ => none
  | _ => none

/-- `OutputFormat` from `mpask.rs`. -/
inductive OutputFormat where
  | text
  | json
  deriving DecidableEq, Repr

/-- `OutputFormat::as_str`. -/
def OutputFormat.as_str : OutputFormat → String
  | .text => "text"
  | .json => "json"

/-- The distinct error cases of the `mpask.rs` resolvers (the source
formats them as strings). -/
inductive ResolveError where
  | configError (e : Mpipe.Config.ConfigError)
  | invalidProviderValue (source raw : String)
  | noModel
  | invalidEnvNumber (var raw : String)
  | invalidTemperature (value : Rat)
  | invalidMaxTokens
  | invalidTimeout
  | invalidRetryDelay
  | invalidProfileOutput (raw : String)
  | noPrompt
  | emptyPrompt
  deriving DecidableEq, Repr

/-- `resolve_profile` from `mpask.rs`: load the named profile, or an
all-default bundle when no profile was named. -/
def resolve_profile (profile_name : Option String) (config : Mpipe.Config.ConfigFile) :
    Except Mpipe.Config.ConfigError Mpipe.Config.ProfileConfig :=
  match profile_name with
  | some name => Mpipe.Config.load_profile config name
  | none => .ok {}

/-- `parse_provider_value` from `mpask.rs`. -/
def parse_provider_value (raw : String) (source : String) : Except ResolveError Provider :=
  match Mpipe.strLower (Mpipe.strTrim raw) with
  | "openai" => .ok .openai
  | "fireworks" => .ok .fireworks
  | _ => .error (.invalidProviderValue source (Mpipe.strLower (Mpipe.strTrim raw)))

/-- `resolve_provider` from `mpask.rs`: explicit flag, then `MP_PROVIDER`,
then the profile's provider field, then the hardcoded OpenAI default. -/
def resolve_provider (cli_provider : Option Provider) (env : Env)
    (profile : Mpipe.Config.ProfileConfig) : Except ResolveError Provider :=
  match cli_provider with
  | some provider => .ok provider
  | none =>
    match env.mp_provider with
    | some raw => parse_provider_value raw "MP_PROVIDER"
    | none =>
      match profile.provider with
      | some provider => parse_provider_value provider "profile provider"
      | none => .ok .openai

/-- `resolve_model` from `mpask.rs`: a tier whose value trims to empty
falls through to the next tier; no tier yielding a non-empty value is an
error. -/
def resolve_model (cli_model : Option String) (env : Env)
    (profile : Mpipe.Config.ProfileConfig) : Except ResolveError String :=
  match cli_model with
  | some model =>
    if ¬Mpipe.strIsEmpty (Mpipe.strTrim model) then .ok (Mpipe.strTrim model)
    else resolve_model_env env profile
  | none => resolve_model_env env profile
where
  resolve_model_env (env : Env) (profile : Mpipe.Config.ProfileConfig) :
      Except ResolveError String :=
    match env.mp_model with
    | some model =>
      if ¬Mpipe.strIsEmpty (Mpipe.strTrim model) then .ok (Mpipe.strTrim model)
      else resolve_model_profile profile
    | none => resolve_model_profile profile
  resolve_model_profile (profile : Mpipe.Config.ProfileConfig) :
      Except ResolveError String :=
    match profile.model with
    | some model =>
      if ¬Mpipe.strIsEmpty (Mpipe.strTrim model) then .ok (Mpipe.strTrim model)
      else .error .noModel
    | none => .error .noModel

/-- `resolve_temperature` from `mpask.rs`: select explicit flag, else
parsed `MP_TEMPERATURE` (parse failure is fatal), else profile field; then
check the selected value lies in `[0.0, 2.0]`. -/
def resolve_temperature (cli_temperature : Option Rat) (env : Env)
    (profile : Mpipe.Config.ProfileConfig) : Except ResolveError (Option Rat) := do
  let temperature ←
    match cli_temperature with
    | some temperature => pure (some temperature)
    | none =>
      match env.mp_temperature with
      | some raw =>
        match parseDecimal (Mpipe.strTrim raw) with
        | some parsed => pure (some parsed)
        | none => throw (.invalidEnvNumber "MP_TEMPERATURE" raw)
      | none => pure profile.temperature
  match temperature with
  | some value =>
    if ¬(0 ≤ value ∧ value ≤ 2) then throw (.invalidTemperature value)
    else pure temperature
  | none => pure none

/-- `resolve_max_tokens` from `mpask.rs`: select explicit flag, else parsed
`MP_MAX_TOKENS`, else profile field; then reject 0. -/
def resolve_max_tokens (cli_max_tokens : Option Nat) (env : Env)
    (profile : Mpipe.Config.ProfileConfig) : Except ResolveError (Option Nat) := do
  let max_tokens ←
    match cli_max_tokens with
    | some max_tokens => pure (some max_tokens)
    | none =>
      match env.mp_max_tokens with
      | some raw =>
        match parseNatInRange (Mpipe.strTrim raw) Mpipe.u32Max with
        | some parsed => pure (some parsed)
        | none => throw (.invalidEnvNumber "MP_MAX_TOKENS" raw)
      | none => pure profile.max_tokens
  match max_tokens with
  | some value => if value = 0 then throw .invalidMaxTokens else pure max_tokens
  | none => pure none

/-- `resolve_timeout` from `mpask.rs`: select explicit flag, else parsed
`MP_TIMEOUT`, else profile field; then reject 0. -/
def resolve_timeout (cli_timeout : Option Nat) (env : Env)
    (profile : Mpipe.Config.ProfileConfig) : Except ResolveError (Option Nat) := do
  let timeout ←
    match cli_timeout with
    | some timeout => pure (some timeout)
    | none =>
      match env.mp_timeout with
      | some raw =>
        match parseNatInRange (Mpipe.strTrim raw) Mpipe.u64Max with
        | some parsed => pure (some parsed)
        | none => throw (.invalidEnvNumber "MP_TIMEOUT" raw)
      | none => pure profile.timeout
  match timeout with
  | some value => if value = 0 then throw .invalidTimeout else pure timeout
  | none => pure none

/-- `resolve_retries` from `mpask.rs`: explicit flag, else parsed
`MP_RETRIES`, else profile field defaulting to 0; no further check. -/
def resolve_retries (cli_retries : Option Nat) (env : Env)
    (profile : Mpipe.Config.ProfileConfig) : Except ResolveError Nat :=
  match cli_retries with
  | some retries => .ok retries
  | none =>
    match env.mp_retries with
    | some raw =>
      match parseNatInRange (Mpipe.strTrim raw) Mpipe.u32Max with
      | some parsed => .ok parsed
      | none => .error (.invalidEnvNumber "MP_RETRIES" raw)
    | none => .ok (profile.retries.getD 0)

/-- `resolve_retry_delay` from `mpask.rs`: explicit flag, else parsed
`MP_RETRY_DELAY`, else profile field defaulting to 500; then reject 0
whichever tier produced it. -/
def resolve_retry_delay (cli_retry_delay : Option Nat) (env : Env)
    (profile : Mpipe.Config.ProfileConfig) : Except ResolveError Nat := do
  let retry_delay ←
    match cli_retry_delay with
    | some retry_delay => pure retry_delay
    | none =>
      match env.mp_retry_delay with
      | some raw =>
        match parseNatInRange (Mpipe.strTrim raw) Mpipe.u64Max with
        | some parsed => pure parsed
        | none => throw (.invalidEnvNumber "MP_RETRY_DELAY" raw)
      | none => pure (profile.retry_delay.getD 500)
  if retry_delay = 0 then throw .invalidRetryDelay else pure retry_delay

/-- `parse_output_format` from `mpask.rs`. -/
def parse_output_format (raw : String) : Except ResolveError OutputFormat :=
  match Mpipe.strLower (Mpipe.strTrim raw) with
  | "text" => .ok .text
  | "json" => .ok .json
  | _ => .error (.invalidProfileOutput (Mpipe.strLower (Mpipe.strTrim raw)))

/-- `resolve_output_format` from `mpask.rs`: `--json` wins, then
`--output`, then the profile's output field, then Text; no environment
variable is read. -/
def resolve_output_format (output : Option OutputFormat) (json : Bool)
    (profile : Mpipe.Config.ProfileConfig) : Except ResolveError OutputFormat :=
  if json then .ok .json
  else
    match output with
    | some output => .ok output
    | none =>
      match profile.output with
      | some profile_output => parse_output_format profile_output
      | none => .ok .text

/-- `resolve_show_usage` from `mpask.rs`. -/
def resolve_show_usage (cli_show_usage : Bool) (profile : Mpipe.Config.ProfileConfig) : Bool :=
  if cli_show_usage then true else profile.show_usage.getD false

/-- `resolve_system` from `mpask.rs`. -/
def resolve_system (cli_system : Option String) (profile : Mpipe.Config.ProfileConfig) :
    Option String :=
  match cli_system with
  | some system => some system
  | none => profile.system

/-- `non_empty` from `mpask.rs`. -/
def non_empty (value : Option String) : Option String :=
  value.bind fun text =>
    if Mpipe.strIsEmpty (Mpipe.strTrim text) then none else some (Mpipe.strTrim text)

/-- `build_messages` from `mpask.rs`. -/
def build_messages (system : Option String) (prompt : String) : List ChatMessage :=
  (match system with
   | some system => [ChatMessage.system system]
   | none => []) ++ [ChatMessage.user prompt]

/-- `compose_prompt` from `mpask.rs`: skip empty pre/post segments, join
with blank lines. -/
def compose_prompt (preprompt : Option String) (main_prompt : String)
    (postprompt : Option String) : String :=
  let pre :=
    match preprompt with
    | some pre => if Mpipe.strIsEmpty (Mpipe.strTrim pre) then [] else [pre]
    | none => []
  let post :=
    match postprompt with
    | some post => if Mpipe.strIsEmpty (Mpipe.strTrim post) then [] else [post]
    | none => []
  String.intercalate "\n\n" (pre ++ [main_prompt] ++ post)

/-- `PromptSource` from `mpask.rs`. -/
inductive PromptSource where
  | argument
  | stdin
  deriving DecidableEq, Repr

/-- `PromptInput` from `mpask.rs`. -/
structure PromptInput where
  text : String
  source : PromptSource
  deriving DecidableEq, Repr

/-- `resolve_prompt` from `mpask.rs`; `stdin = none` models an interactive
terminal with nothing piped in. -/
def resolve_prompt (cli_prompt : Option String) (stdin : Option String) :
    Except ResolveError PromptInput :=
  match cli_prompt with
  | some prompt => .ok ⟨prompt, .argument⟩
  | none =>
    match stdin with
    | none => .error .noPrompt
    | some buffer =>
      if Mpipe.strIsEmpty (Mpipe.strTrim buffer) then .error .emptyPrompt
      else .ok ⟨Mpipe.strTrim buffer, .stdin⟩

/-- `JsonRequest` from `mpask.rs`. -/
structure JsonRequest where
  temperature : Option Rat
  max_tokens : Option Nat
  timeout_secs : Option Nat
  retries : Nat
  retry_delay_ms : Nat
  deriving DecidableEq, Repr

/-- `DryRunOutput` from `mpask.rs`: the rendered would-be request. -/
structure DryRunOutput where
  dry_run : Bool
  provider : String
  endpoint : String
  model : String
  messages : List ChatMessage
  request : JsonRequest
  output : String
  show_usage : Bool
  authorization : String
  deriving DecidableEq, Repr

/-- The CLI arguments of `mpask` relevant to resolution and dispatch. -/
structure Cli where
  profile : Option String := none
  provider : Option Provider := none
  model : Option String := none
  temperature : Option Rat := none
  max_tokens : Option Nat := none
  timeout : Option Nat := none
  retries : Option Nat := none
  retry_delay : Option Nat := none
  output : Option OutputFormat := none
  json : Bool := false
  show_usage : Bool := false
  dry_run : Bool := false
  system : Option String := none
  prompt : Option String := none
  postprompt : Option String := none
  input : Option String := none
  deriving DecidableEq, Repr

/-- What `run` does after resolution: either the dry-run rendering (and
stop), or the network ask it is about to perform. -/
inductive RunAction where
  | dryRun (rendered : DryRunOutput)
  | networkAsk (provider : Provider) (model : String) (messages : List ChatMessage)
      (options : AskOptions)
  deriving DecidableEq, Repr

/-- The `run` function of `mpask.rs` up to the point where it either
renders the dry-run output or performs the network call, mirroring the
source's resolution order. Verbose logging and `--save` file output are
side channels omitted from the model. -/
def run_until_network (cli : Cli) (env : Env) (config : Mpipe.Config.ConfigFile)
    (stdin : Option String) : Except ResolveError RunAction := do
  let profile ←
    match resolve_profile cli.profile config with
    | .ok profile => pure profile
    | .error e => throw (.configError e)
  let provider ← resolve_provider cli.provider env profile
  let model ← resolve_model cli.model env profile
  let temperature ← resolve_temperature cli.temperature env profile
  let max_tokens ← resolve_max_tokens cli.max_tokens env profile
  let timeout_secs ← resolve_timeout cli.timeout env profile
  let retries ← resolve_retries cli.retries env profile
  let retry_delay_ms ← resolve_retry_delay cli.retry_delay env profile
  let output_format ← resolve_output_format cli.output cli.json profile
  let show_usage := resolve_show_usage cli.show_usage profile
  let system := resolve_system cli.system profile
  let options : AskOptions :=
    { temperature := temperature, max_tokens := max_tokens, timeout_secs := timeout_secs
      retries := retries, retry_delay_ms := retry_delay_ms }
  let main_prompt ← resolve_prompt cli.input stdin
  let prompt := compose_prompt cli.prompt main_prompt.text cli.postprompt
  let messages := build_messages (non_empty system) prompt
  if cli.dry_run then
    pure (.dryRun
      { dry_run := true
        provider := provider.as_str
        endpoint := Mpipe.endpoint provider
        model := model
        messages := messages
        request :=
          { temperature := temperature, max_tokens := max_tokens
            timeout_secs := timeout_secs, retries := retries
            retry_delay_ms := retry_delay_ms }
        output := output_format.as_str
        show_usage := show_usage
        authorization := "Bearer ***REDACTED***" })
  else
    pure (.networkAsk provider model messages options)

end Mpask

/-! ## OpenAI wire adapter — `src/rchain/openai.rs` -/

/-- `Usage` from `provider.rs`. -/
structure Usage where
  prompt_tokens : Option Nat
  completion_tokens : Option Nat
  total_tokens : Option Nat
  deriving DecidableEq, Repr

/-- `AskResponse` from `provider.rs`. -/
structure AskResponse where
  content : String
  usage : Option Usage
  deriving DecidableEq, Repr

namespace Openai

/-- `AssistantMessage` from `openai.rs`. -/
structure AssistantMessage where
  content : Option String := none
  deriving DecidableEq, Repr

/-- `Choice` from `openai.rs`. -/
structure Choice where
  message : AssistantMessage
  deriving DecidableEq, Repr

/-- `UsagePayload` from `openai.rs`. -/
structure UsagePayload where
  prompt_tokens : Option Nat := none
  completion_tokens : Option Nat := none
  total_tokens : Option Nat := none
  deriving DecidableEq, Repr

/-- `ChatCompletionResponse` from `openai.rs`. -/
structure ChatCompletionResponse where
  choices : List Choice := []
  usage : Option UsagePayload := none
  deriving DecidableEq, Repr

/-- A response body as the transport delivers it: its text rendering
(`response.text()`) and its JSON decoding (`response.json()`, `none`
modelling a decode failure). -/
structure RawBody where
  text : String := ""
  json : Option ChatCompletionResponse := none
  deriving DecidableEq, Repr

/-- `ProviderError` from `provider.rs` (`Api.body` is the text body;
`Request.source` is the reqwest error kind). -/
inductive ProviderError where
  | missingApiKey (provider : Provider) (key_env : String)
  | requestError (provider : Provider) (err : ChatRuntime.RequestErrorKind)
  | apiError (provider : Provider) (status : Nat) (body : String)
  | emptyResponse (provider : Provider)
  deriving DecidableEq, Repr

/-- `ask_messages` from `openai.rs`, with the HTTP transport abstracted as
a script (the serialized payload plays no role in the control flow): read
the credential, run the retry executor with the configured
timeout/retries/delay, map transport failures, decode the JSON body,
extract the first choice's non-empty content and the usage. Paired with
the number of HTTP calls the executor made. -/
def ask_messages (api_key : Option String)
    (transport : Nat → Except ChatRuntime.RequestErrorKind (ChatRuntime.HttpResponse RawBody))
    (options : AskOptions) : Except ProviderError AskResponse × Nat :=
  match api_key with
  | none => (.error (.missingApiKey .openai "OPENAI_API_KEY"), 0)
  | some _ =>
    let outcome := ChatRuntime.send_chat_request_with_retry transport
      { timeout_secs := options.timeout_secs, retries := options.retries,
        retry_delay_ms := options.retry_delay_ms }
    match outcome.result with
    | .error (.request source) => (.error (.requestError .openai source), outcome.calls)
    | .error (.api status body) => (.error (.apiError .openai status body.text), outcome.calls)
    | .ok response =>
      match response.body.json with
      | none => (.error (.requestError .openai .decode), outcome.calls)
      | some body =>
        match (body.choices.head?.bind fun choice => choice.message.content).filter
            (fun content => ¬ strIsEmpty content) with
        | none => (.error (.emptyResponse .openai), outcome.calls)
        | some content =>
          let usage := body.usage.map fun u =>
            Usage.mk u.prompt_tokens u.completion_tokens u.total_tokens
          (.ok ⟨content, usage⟩, outcome.calls)

end Openai

/-! ## Concrete scenario data used by the claim checks -/

namespace Scenario

/-- A config file whose `fast` profile names provider `openai` (and no
model), while distinct default bundles exist for both providers. -/
def mixedProviders : Config.ConfigFile :=
  { profiles := some [("fast", { provider := some "openai" })]
    providers := some
      [("OpenAI", { defaults := some { model := some "openai-model" } }),
       ("fireworks", { defaults := some { model := some "fw-model" } })] }

/-- A config file with an unknown provider section next to a valid profile. -/
def badProviderSection : Config.ConfigFile :=
  { profiles := some [("good", { provider := some "openai", model := some "gpt-4o-mini" })]
    providers := some [("unknown", { defaults := some { timeout := some 10 } })] }

/-- A config file with a valid `good` profile and an unrelated `bad`
profile whose temperature is out of domain. -/
def badUnrelatedProfile : Config.ConfigFile :=
  { profiles := some
      [("good", { provider := some "openai", model := some "gpt-4o-mini" }),
       ("bad", { temperature := some (mkRat 31 10) })] }

/-- Environment carrying only `MP_TEMPERATURE=0.5`. -/
def mixedTierEnv : Mpask.Env := { mp_temperature := some "0.5" }

/-- Profile carrying a model and a temperature, for the per-field
independence scenario. -/
def mixedTierProfile : Config.ProfileConfig :=
  { model := some "profile-model", temperature := some 1 }

/-- A parsed 200-response whose only choice has empty assistant content. -/
def emptyContentBody : Openai.RawBody :=
  { text := "{}", json := some { choices := [{ message := { content := some "" } }] } }

/-- Transport always answering 200 with `emptyContentBody`. -/
def emptyContentTransport :
    Nat → Except ChatRuntime.RequestErrorKind (ChatRuntime.HttpResponse Openai.RawBody) :=
  fun _ => .ok ⟨200, emptyContentBody⟩

/-- A dry-run CLI invocation with an explicit model and prompt. -/
def dryCli : Mpask.Cli := { model := some "m", dry_run := true, input := some "hi" }

/-- Environment with a credential set. -/
def secretEnv : Mpask.Env := { openai_api_key := some "sk-secret" }

/-- The dry-run rendering produced for `dryCli` (any credentials). -/
def dryRendered : Mpask.DryRunOutput :=
  { dry_run := true
    provider := "openai"
    endpoint := "https://api.openai.com/v1/chat/completions"
    model := "m"
    messages := [ChatMessage.user "hi"]
    request := { temperature := none, max_tokens := none, timeout_secs := none,
                 retries := 0, retry_delay_ms := 500 }
    output := "text"
    show_usage := false
    authorization := "Bearer ***REDACTED***" }

end Scenario

end Mpipe

namespace Mpipe.ChatRuntime

theorem retryLoop_calls_le (transport : Nat → Except RequestErrorKind (HttpResponse β))
    (config : RetryConfig) :
    ∀ budget attempt, (retryLoop transport config attempt budget).calls ≤ attempt + 1 + budget := by
  intro budget
  induction budget with
  | zero =>
    intro attempt
    rw [retryLoop.eq_def]
    cases hT : transport attempt with
    | ok response =>
      by_cases hs : isSuccessStatus response.status <;> simp [hT, hs]
    | error e => simp [hT]
  | succ b ih =>
    intro attempt
    rw [retryLoop.eq_def]
    cases hT : transport attempt with
    | ok response =>
      by_cases hs : isSuccessStatus response.status
      · simp [hT, hs]
      · cases hr : is_retryable_status response.status
        · simp [hT, hs, hr]
        · simp only [hT, hs, hr, Bool.false_eq_true, if_false, if_true]
          have := ih (attempt + 1)
          simp only [RetryOutcome.calls] at *
          omega
    | error e =>
      cases hr : is_retryable_request_error e
      · simp [hT, hr]
      · simp only [hT, hr, if_true]
        have := ih (attempt + 1)
        simp only [RetryOutcome.calls] at *
        omega

theorem retryLoop_budget_zero_calls (transport : Nat → Except RequestErrorKind (HttpResponse β))
    (config : RetryConfig) (attempt : Nat) :
    (retryLoop transport config attempt 0).calls = attempt + 1 := by
  rw [retryLoop.eq_def]
  cases hT : transport attempt with
  | ok response =>
    by_cases hs : isSuccessStatus response.status <;> simp [hT, hs]
  | error e => simp [hT]

theorem retryLoop_fatal_api (transport : Nat → Except RequestErrorKind (HttpResponse β))
    (config : RetryConfig) (attempt budget : Nat) (resp : HttpResponse β)
    (hT : transport attempt = .ok resp) (hs : isSuccessStatus resp.status = false)
    (hr : is_retryable_status resp.status = false) :
    retryLoop transport config attempt budget =
      ⟨.error (.api resp.status resp.body), attempt + 1, []⟩ := by
  rw [retryLoop.eq_def]
  cases budget <;> simp [hT, hs, hr]

theorem retryLoop_fatal_request (transport : Nat → Except RequestErrorKind (HttpResponse β))
    (config : RetryConfig) (attempt budget : Nat) (e : RequestErrorKind)
    (hT : transport attempt = .error e) (hr : is_retryable_request_error e = false) :
    retryLoop transport config attempt budget =
      ⟨.error (.request e), attempt + 1, []⟩ := by
  rw [retryLoop.eq_def]
  cases budget <;> simp [hT, hr]

theorem retryLoop_first_success (transport : Nat → Except RequestErrorKind (HttpResponse β))
    (config : RetryConfig) (attempt budget : Nat) (resp : HttpResponse β)
    (hT : transport attempt = .ok resp) (hs : isSuccessStatus resp.status = true) :
    retryLoop transport config attempt budget = ⟨.ok resp, attempt + 1, []⟩ := by
  rw [retryLoop.eq_def]
  simp [hT, hs]

end Mpipe.ChatRuntime

/-- C2: for every attempt index `n ≥ 0` and configured base delay `b > 0`, the
backoff delay slept before the next attempt equals `min(b * 2^n, 30000)`
milliseconds, computed with saturating (never wrapping) arithmetic, so for
arbitrarily large `n` the delay is still exactly 30000 ms. -/
theorem c2_backoff_delay (n b : Nat) (hb : 0 < b) :
    Mpipe.ChatRuntime.retry_delay n b = min (b * 2 ^ n) 30000 := by
  have hM : Mpipe.u64Max = 18446744073709551615 := by norm_num [Mpipe.u64Max]
  unfold Mpipe.ChatRuntime.retry_delay Mpipe.ChatRuntime.checkedShlOne Mpipe.saturatingMulU64
  by_cases h : n < 64
  · simp only [if_pos h, Option.getD_some]
    generalize b * 2 ^ n = X
    omega
  · simp only [if_neg h, Option.getD_none]
    push_neg at h
    have h2 : (2 : Nat) ^ 64 ≤ 2 ^ n := Nat.pow_le_pow_right (by norm_num) h
    have h3 : 2 ^ n ≤ b * 2 ^ n := Nat.le_mul_of_pos_left (2 ^ n) hb
    have h4 : Mpipe.u64Max ≤ b * Mpipe.u64Max := Nat.le_mul_of_pos_left Mpipe.u64Max hb
    have h5 : (2 : Nat) ^ 64 = 18446744073709551616 := by norm_num
    generalize b * 2 ^ n = X at h3
    generalize b * Mpipe.u64Max = Y at h4
    omega

/-- Witness for C2 at `n = 10`, `b = 500`: the delay caps at 30000 ms. -/
theorem c2_backoff_delay_witness :
    0 < 500 ∧ Mpipe.ChatRuntime.retry_delay 10 500 = min (500 * 2 ^ 10) 30000 :=
  ⟨by decide, c2_backoff_delay 10 500 (by decide)⟩

/-- C4: an HTTP response is retryable iff its status is 429 or any 5xx
(429, 500, 502, 503 retryable; 400, 401, 404 not); a network-level error is
retryable iff it is a timeout, a connection failure, or a generic pre-send
request error; every other outcome is fatal and causes no further attempts
regardless of remaining budget. -/
theorem c4_failure_classification :
    (∀ s : Nat, Mpipe.ChatRuntime.is_retryable_status s = true ↔
        (s = 429 ∨ (500 ≤ s ∧ s ≤ 599))) ∧
    (∀ e : Mpipe.ChatRuntime.RequestErrorKind,
        Mpipe.ChatRuntime.is_retryable_request_error e = true ↔
          (e = .timeout ∨ e = .connect ∨ e = .request)) ∧
    ((Mpipe.ChatRuntime.is_retryable_status 429,
      Mpipe.ChatRuntime.is_retryable_status 500,
      Mpipe.ChatRuntime.is_retryable_status 502,
      Mpipe.ChatRuntime.is_retryable_status 503,
      Mpipe.ChatRuntime.is_retryable_status 400,
      Mpipe.ChatRuntime.is_retryable_status 401,
      Mpipe.ChatRuntime.is_retryable_status 404) =
        (true, true, true, true, false, false, false)) ∧
    (∀ (transport : Nat → Except Mpipe.ChatRuntime.RequestErrorKind
          (Mpipe.ChatRuntime.HttpResponse String))
        (config : Mpipe.ChatRuntime.RetryConfig) (resp : Mpipe.ChatRuntime.HttpResponse String),
        transport 0 = .ok resp →
        Mpipe.ChatRuntime.isSuccessStatus resp.status = false →
        Mpipe.ChatRuntime.is_retryable_status resp.status = false →
        Mpipe.ChatRuntime.send_chat_request_with_retry transport config =
          ⟨.error (.api resp.status resp.body), 1, []⟩) ∧
    (∀ (transport : Nat → Except Mpipe.ChatRuntime.RequestErrorKind
          (Mpipe.ChatRuntime.HttpResponse String))
        (config : Mpipe.ChatRuntime.RetryConfig) (e : Mpipe.ChatRuntime.RequestErrorKind),
        transport 0 = .error e →
        Mpipe.ChatRuntime.is_retryable_request_error e = false →
        Mpipe.ChatRuntime.send_chat_request_with_retry transport config =
          ⟨.error (.request e), 1, []⟩) := by
  refine ⟨?_, ?_, by decide, ?_, ?_⟩
  · intro s
    simp [Mpipe.ChatRuntime.is_retryable_status, Mpipe.ChatRuntime.isServerError]
  · intro e
    cases e <;> simp [Mpipe.ChatRuntime.is_retryable_request_error]
  · intro transport config resp hT hs hr
    exact Mpipe.ChatRuntime.retryLoop_fatal_api transport config 0 _ resp hT hs hr
  · intro transport config e hT hr
    exact Mpipe.ChatRuntime.retryLoop_fatal_request transport config 0 _ e hT hr

/-- Witness for C4: a 404 on the first attempt is fatal immediately even
with a retry budget of 5. -/
theorem c4_failure_classification_witness :
    Mpipe.ChatRuntime.send_chat_request_with_retry
        (fun _ => .ok ⟨404, "nope"⟩) ⟨none, 5, 100⟩ =
      ⟨.error (.api 404 "nope"), 1, []⟩ :=
  c4_failure_classification.2.2.2.1 (fun _ => .ok ⟨404, "nope"⟩) ⟨none, 5, 100⟩
    ⟨404, "nope"⟩ rfl (by decide) (by decide)

/-- C3: for every retry budget `r` the executor makes at most `r + 1`
attempts; it stops at the first successful response; with `r = 0` any
failure ends the invocation after exactly one attempt; and for `r = 2`
with a transport failing retryably (500) twice then succeeding, the third
attempt's response is returned after exactly three calls. -/
theorem c3_retry_budget :
    (∀ (transport : Nat → Except Mpipe.ChatRuntime.RequestErrorKind
          (Mpipe.ChatRuntime.HttpResponse String))
        (config : Mpipe.ChatRuntime.RetryConfig),
        (Mpipe.ChatRuntime.send_chat_request_with_retry transport config).calls ≤
          config.retries + 1) ∧
    (∀ (transport : Nat → Except Mpipe.ChatRuntime.RequestErrorKind
          (Mpipe.ChatRuntime.HttpResponse String))
        (config : Mpipe.ChatRuntime.RetryConfig) (resp : Mpipe.ChatRuntime.HttpResponse String),
        transport 0 = .ok resp →
        Mpipe.ChatRuntime.isSuccessStatus resp.status = true →
        Mpipe.ChatRuntime.send_chat_request_with_retry transport config = ⟨.ok resp, 1, []⟩) ∧
    (∀ (transport : Nat → Except Mpipe.ChatRuntime.RequestErrorKind
          (Mpipe.ChatRuntime.HttpResponse String))
        (config : Mpipe.ChatRuntime.RetryConfig),
        config.retries = 0 →
        (Mpipe.ChatRuntime.send_chat_request_with_retry transport config).calls = 1) ∧
    (Mpipe.ChatRuntime.send_chat_request_with_retry
        Mpipe.ChatRuntime.scriptTwo500ThenOk ⟨none, 2, 100⟩ =
      ⟨.ok ⟨200, "third"⟩, 3, [100, 200]⟩) := by
  refine ⟨?_, ?_, ?_, by rfl⟩
  · intro transport config
    have h := Mpipe.ChatRuntime.retryLoop_calls_le transport config
      (Mpipe.saturatingAddU32 config.retries 1 - 1) 0
    have hM : Mpipe.u32Max = 4294967295 := by norm_num [Mpipe.u32Max]
    unfold Mpipe.ChatRuntime.send_chat_request_with_retry
    unfold Mpipe.saturatingAddU32 at h ⊢
    omega
  · intro transport config resp hT hs
    exact Mpipe.ChatRuntime.retryLoop_first_success transport config 0 _ resp hT hs
  · intro transport config h0
    unfold Mpipe.ChatRuntime.send_chat_request_with_retry
    have hB : Mpipe.saturatingAddU32 config.retries 1 - 1 = 0 := by
      rw [h0]; decide
    rw [hB]
    exact Mpipe.ChatRuntime.retryLoop_budget_zero_calls transport config 0

/-- Witness for C3: a first-attempt success is returned after exactly one
call even with a retry budget of 7. -/
theorem c3_retry_budget_witness :
    Mpipe.ChatRuntime.send_chat_request_with_retry
        (fun _ => .ok ⟨200, "hello"⟩) ⟨none, 7, 250⟩ = ⟨.ok ⟨200, "hello"⟩, 1, []⟩ :=
  c3_retry_budget.2.1 (fun _ => .ok ⟨200, "hello"⟩) ⟨none, 7, 250⟩ ⟨200, "hello"⟩ rfl (by decide)

/-- C1 counterexample: in `mixedProviders`, profile `fast` names provider
`openai` and no model; with explicit `--provider fireworks` the resolved
provider is Fireworks, and the model is absent from the explicit,
environment, and profile tiers — yet it fills from the bundle keyed by the
profile's `openai`, producing "openai-model" instead of the Fireworks
bundle's "fw-model". So the tier-4 bundle is not keyed by the
already-resolved provider. -/
theorem c1_counterexample :
    (Mpipe.Mpask.run_until_network
        { profile := some "fast", provider := some .fireworks, dry_run := true,
          input := some "hi" }
        {} Mpipe.Scenario.mixedProviders none).map
      (fun a =>
        match a with
        | .dryRun d => (d.provider, d.model)
        | .networkAsk p m _ _ => (p.as_str, m)) = .ok ("fireworks", "openai-model") ∧
    Mpipe.Config.provider_defaults_for Mpipe.Scenario.mixedProviders "fireworks" =
      some { model := some "fw-model" } ∧
    ("openai-model" : String) ≠ "fw-model" := by
  decide

/-- C1 (amended): during configuration resolution with a named profile, the
provider-level default bundle applied as tier (4) is the one keyed by the
profile's own provider field (not the provider resolved from explicit or
environment input), selected by normalizing that field and matching the
config file's provider section keys case-insensitively; for every field, a
value absent from the explicit, environment, and profile tiers is filled
from that bundle. -/
theorem c1_amended :
    (∀ (config : Mpipe.Config.ConfigFile) (name : String)
        (profile : Mpipe.Config.ProfileConfig),
        Mpipe.Config.validate_config_file config = .ok () →
        Mpipe.Config.profile_from_config config name = .ok profile →
        Mpipe.Config.load_profile config name =
          .ok (Mpipe.Config.merge_provider_defaults
            ((profile.provider.bind Mpipe.Config.normalized_provider_value).bind
              (Mpipe.Config.provider_defaults_for config)) profile)) ∧
    (∀ (key : String) (sect : Mpipe.Config.ProviderSectionConfig) (prov : String)
        (config : Mpipe.Config.ConfigFile),
        config.providers = some [(key, sect)] →
        Mpipe.Config.normalized_provider_value key = some prov →
        Mpipe.Config.provider_defaults_for config prov = sect.defaults) ∧
    (∀ (d : Mpipe.Config.ProviderDefaultsConfig) (p : Mpipe.Config.ProfileConfig),
        p.model = none → (Mpipe.Config.merge_provider_defaults (some d) p).model = d.model) ∧
    (∀ (d : Mpipe.Config.ProviderDefaultsConfig) (p : Mpipe.Config.ProfileConfig),
        p.temperature = none →
          (Mpipe.Config.merge_provider_defaults (some d) p).temperature = d.temperature) ∧
    (∀ (env : Mpipe.Mpask.Env) (d : Mpipe.Config.ProviderDefaultsConfig)
        (p : Mpipe.Config.ProfileConfig) (m : String),
        env.mp_model = none → p.model = none → d.model = some m →
        ¬ Mpipe.strIsEmpty (Mpipe.strTrim m) →
        Mpipe.Mpask.resolve_model none env (Mpipe.Config.merge_provider_defaults (some d) p) =
          .ok (Mpipe.strTrim m)) := by
  refine ⟨?_, ?_, ?_, ?_, ?_⟩
  · intro config name profile h1 h2
    simp [Mpipe.Config.load_profile, h1, h2, Bind.bind, Except.bind, Pure.pure, Except.pure]
  · intro key sect prov config hp hk
    cases hd : sect.defaults <;>
      simp [Mpipe.Config.provider_defaults_for, hp, List.findSome?, hk, hd]
  · intro d p h
    simp [Mpipe.Config.merge_provider_defaults, h, Option.or]
  · intro d p h
    simp [Mpipe.Config.merge_provider_defaults, h, Option.or]
  · intro env d p m henv hp hd hm
    simp [Mpipe.Mpask.resolve_model, Mpipe.Mpask.resolve_model.resolve_model_env,
      Mpipe.Mpask.resolve_model.resolve_model_profile, henv,
      Mpipe.Config.merge_provider_defaults, hp, hd, Option.or, hm]

/-- Witness for C1 (amended) on `mixedProviders` and its `fast` profile. -/
theorem c1_amended_witness :
    Mpipe.Config.load_profile Mpipe.Scenario.mixedProviders "fast" =
      .ok (Mpipe.Config.merge_provider_defaults
        ((((Mpipe.Config.ProfileConfig.mk (some "openai") none none none none none none none
            none none).provider.bind Mpipe.Config.normalized_provider_value).bind
          (Mpipe.Config.provider_defaults_for Mpipe.Scenario.mixedProviders)))
        (Mpipe.Config.ProfileConfig.mk (some "openai") none none none none none none none
          none none)) :=
  c1_amended.1 Mpipe.Scenario.mixedProviders "fast"
    (Mpipe.Config.ProfileConfig.mk (some "openai") none none none none none none none none none)
    (by decide) (by decide)

namespace Mpipe.Mpask

theorem run_until_network_ok_shape (cli : Cli) (env : Env) (config : Mpipe.Config.ConfigFile)
    (stdin : Option String) (a : RunAction)
    (h : run_until_network cli env config stdin = .ok a) :
    ∃ (profile : Mpipe.Config.ProfileConfig) (provider : Mpipe.Provider) (model : String)
      (temperature : Option Rat) (max_tokens timeout_secs : Option Nat)
      (retries retry_delay_ms : Nat) (output_format : OutputFormat)
      (main_prompt : PromptInput),
      resolve_profile cli.profile config = .ok profile ∧
      resolve_provider cli.provider env profile = .ok provider ∧
      resolve_model cli.model env profile = .ok model ∧
      resolve_temperature cli.temperature env profile = .ok temperature ∧
      resolve_max_tokens cli.max_tokens env profile = .ok max_tokens ∧
      resolve_timeout cli.timeout env profile = .ok timeout_secs ∧
      resolve_retries cli.retries env profile = .ok retries ∧
      resolve_retry_delay cli.retry_delay env profile = .ok retry_delay_ms ∧
      resolve_output_format cli.output cli.json profile = .ok output_format ∧
      resolve_prompt cli.input stdin = .ok main_prompt ∧
      a = (if cli.dry_run then
            .dryRun
              { dry_run := true
                provider := provider.as_str
                endpoint := Mpipe.endpoint provider
                model := model
                messages := build_messages (non_empty (resolve_system cli.system profile))
                  (compose_prompt cli.prompt main_prompt.text cli.postprompt)
                request := { temperature := temperature, max_tokens := max_tokens,
                             timeout_secs := timeout_secs, retries := retries,
                             retry_delay_ms := retry_delay_ms }
                output := output_format.as_str
                show_usage := resolve_show_usage cli.show_usage profile
                authorization := "Bearer ***REDACTED***" }
          else
            .networkAsk provider model
              (build_messages (non_empty (resolve_system cli.system profile))
                (compose_prompt cli.prompt main_prompt.text cli.postprompt))
              { temperature := temperature, max_tokens := max_tokens,
                timeout_secs := timeout_secs, retries := retries,
                retry_delay_ms := retry_delay_ms }) := by
  unfold run_until_network at h
  cases hp : resolve_profile cli.profile config with
  | error e =>
    rw [hp] at h
    simp [Bind.bind, Except.bind, throw, throwThe, MonadExceptOf.throw] at h
  | ok profile =>
  rw [hp] at h
  simp only [Bind.bind, Except.bind, Pure.pure, Except.pure] at h
  cases h1 : resolve_provider cli.provider env profile with
  | error e => rw [h1] at h; simp at h
  | ok provider =>
  rw [h1] at h
  simp only at h
  cases h2 : resolve_model cli.model env profile with
  | error e => rw [h2] at h; simp at h
  | ok model =>
  rw [h2] at h
  simp only at h
  cases h3 : resolve_temperature cli.temperature env profile with
  | error e => rw [h3] at h; simp at h
  | ok temperature =>
  rw [h3] at h
  simp only at h
  cases h4 : resolve_max_tokens cli.max_tokens env profile with
  | error e => rw [h4] at h; simp at h
  | ok max_tokens =>
  rw [h4] at h
  simp only at h
  cases h5 : resolve_timeout cli.timeout env profile with
  | error e => rw [h5] at h; simp at h
  | ok timeout_secs =>
  rw [h5] at h
  simp only at h
  cases h6 : resolve_retries cli.retries env profile with
  | error e => rw [h6] at h; simp at h
  | ok retries =>
  rw [h6] at h
  simp only at h
  cases h7 : resolve_retry_delay cli.retry_delay env profile with
  | error e => rw [h7] at h; simp at h
  | ok retry_delay_ms =>
  rw [h7] at h
  simp only at h
  cases h8 : resolve_output_format cli.output cli.json profile with
  | error e => rw [h8] at h; simp at h
  | ok output_format =>
  rw [h8] at h
  simp only at h
  cases h9 : resolve_prompt cli.input stdin with
  | error e => rw [h9] at h; simp at h
  | ok main_prompt =>
  rw [h9] at h
  simp only at h
  refine ⟨profile, provider, model, temperature, max_tokens, timeout_secs, retries,
    retry_delay_ms, output_format, main_prompt, ?_, ?_, ?_, ?_, ?_, ?_, ?_, ?_, ?_, ?_, ?_⟩
  case _ => rfl
  case _ => exact h1
  case _ => exact h2
  case _ => exact h3
  case _ => exact h4
  case _ => exact h5
  case _ => exact h6
  case _ => exact h7
  case _ => exact h8
  case _ => rfl
  case _ => cases hd : cli.dry_run <;> rw [hd] at h <;> simp at h <;> simp [h.symm]

end Mpipe.Mpask

/-- C9: in dry-run mode the program never reaches the network ask — every
successful run renders a `dryRun` output carrying the fixed redacted
credential placeholder — and the whole run result is unchanged by the
provider credential environment variables, whether set or not and whatever
their values (two-run noninterference over the credential input). -/
theorem c9_dry_run_redaction :
    (∀ (cli : Mpipe.Mpask.Cli) (env : Mpipe.Mpask.Env) (config : Mpipe.Config.ConfigFile)
        (stdin : Option String) (a : Mpipe.Mpask.RunAction),
        cli.dry_run = true →
        Mpipe.Mpask.run_until_network cli env config stdin = .ok a →
        ∃ d, a = .dryRun d ∧ d.authorization = "Bearer ***REDACTED***") ∧
    (∀ (cli : Mpipe.Mpask.Cli) (env : Mpipe.Mpask.Env) (config : Mpipe.Config.ConfigFile)
        (stdin : Option String) (k1 k2 : Option String),
        Mpipe.Mpask.run_until_network cli
            { env with openai_api_key := k1, fireworks_api_key := k2 } config stdin =
          Mpipe.Mpask.run_until_network cli env config stdin) := by
  constructor
  · intro cli env config stdin a hdry h
    obtain ⟨profile, provider, model, temperature, max_tokens, timeout_secs, retries,
      retry_delay_ms, output_format, main_prompt, _, _, _, _, _, _, _, _, _, _, ha⟩ :=
      Mpipe.Mpask.run_until_network_ok_shape cli env config stdin a h
    rw [hdry] at ha
    simp only [if_true] at ha
    exact ⟨_, ha, rfl⟩
  · intro cli env config stdin k1 k2
    rfl

/-- Witness for C9: a concrete dry-run invocation with `OPENAI_API_KEY`
set renders the redacted placeholder. -/
theorem c9_dry_run_redaction_witness :
    ∃ d, Mpipe.Mpask.RunAction.dryRun Mpipe.Scenario.dryRendered = .dryRun d ∧
      d.authorization = "Bearer ***REDACTED***" :=
  c9_dry_run_redaction.1 Mpipe.Scenario.dryCli Mpipe.Scenario.secretEnv {} none
    (.dryRun Mpipe.Scenario.dryRendered) (by decide) (by decide)

/-- C10: `--json` takes precedence over an explicit `--output` value (both
given resolves to Json); the profile's output field is consulted only when
neither `--json` nor `--output` is present; and no environment variable is
consulted for the output format (two successful runs of the same CLI and
config under different environments render the same output format). -/
theorem c10_output_format :
    (∀ (o : Option Mpipe.Mpask.OutputFormat) (p : Mpipe.Config.ProfileConfig),
        Mpipe.Mpask.resolve_output_format o true p = .ok .json) ∧
    (Mpipe.Mpask.resolve_output_format (some .text) true {} = .ok .json) ∧
    (∀ (o : Mpipe.Mpask.OutputFormat) (p : Mpipe.Config.ProfileConfig),
        Mpipe.Mpask.resolve_output_format (some o) false p = .ok o) ∧
    (∀ (p : Mpipe.Config.ProfileConfig),
        Mpipe.Mpask.resolve_output_format none false p =
          (match p.output with
           | some raw => Mpipe.Mpask.parse_output_format raw
           | none => .ok .text)) ∧
    (∀ (cli : Mpipe.Mpask.Cli) (env1 env2 : Mpipe.Mpask.Env)
        (config : Mpipe.Config.ConfigFile) (stdin1 stdin2 : Option String)
        (d1 d2 : Mpipe.Mpask.DryRunOutput),
        Mpipe.Mpask.run_until_network cli env1 config stdin1 = .ok (.dryRun d1) →
        Mpipe.Mpask.run_until_network cli env2 config stdin2 = .ok (.dryRun d2) →
        d1.output = d2.output) := by
  refine ⟨?_, by decide, ?_, ?_, ?_⟩
  · intro o p
    simp [Mpipe.Mpask.resolve_output_format]
  · intro o p
    simp [Mpipe.Mpask.resolve_output_format]
  · intro p
    simp [Mpipe.Mpask.resolve_output_format]
  · intro cli env1 env2 config stdin1 stdin2 d1 d2 g1 g2
    obtain ⟨p1, _, _, _, _, _, _, _, f1, _, hpr1, _, _, _, _, _, _, _, hf1, _, ha1⟩ :=
      Mpipe.Mpask.run_until_network_ok_shape cli env1 config stdin1 _ g1
    obtain ⟨p2, _, _, _, _, _, _, _, f2, _, hpr2, _, _, _, _, _, _, _, hf2, _, ha2⟩ :=
      Mpipe.Mpask.run_until_network_ok_shape cli env2 config stdin2 _ g2
    rw [hpr1] at hpr2
    injection hpr2 with hp12
    rw [hp12] at hf1
    rw [hf1] at hf2
    injection hf2 with hf12
    cases hd : cli.dry_run
    · rw [hd] at ha1
      simp at ha1
    · rw [hd] at ha1 ha2
      simp only [if_true] at ha1 ha2
      cases ha1
      cases ha2
      simp [hf12]

/-- Witness for C10: two runs of the same dry-run CLI under different
environments (one with a credential set) render the same output format. -/
theorem c10_output_format_witness :
    Mpipe.Scenario.dryRendered.output = Mpipe.Scenario.dryRendered.output :=
  c10_output_format.2.2.2.2 Mpipe.Scenario.dryCli {} Mpipe.Scenario.secretEnv {} none none
    Mpipe.Scenario.dryRendered Mpipe.Scenario.dryRendered (by decide) (by decide)

/-- C5: per-field strict precedence — explicit input overrides the
environment variable, which overrides the profile field, which (through
the merge) overrides the provider-default field, which overrides the
hardcoded default — with tiers tried independently per field, so one field
may resolve from the profile while another resolves from the environment
in the same run. -/
theorem c5_precedence :
    (∀ (t : Rat) (env : Mpipe.Mpask.Env) (p : Mpipe.Config.ProfileConfig),
        0 ≤ t ∧ t ≤ 2 →
        Mpipe.Mpask.resolve_temperature (some t) env p = .ok (some t)) ∧
    (∀ (env : Mpipe.Mpask.Env) (p : Mpipe.Config.ProfileConfig) (raw : String) (v : Rat),
        env.mp_temperature = some raw →
        Mpipe.Mpask.parseDecimal (Mpipe.strTrim raw) = some v →
        0 ≤ v ∧ v ≤ 2 →
        Mpipe.Mpask.resolve_temperature none env p = .ok (some v)) ∧
    (∀ (env : Mpipe.Mpask.Env) (p : Mpipe.Config.ProfileConfig) (v : Rat),
        env.mp_temperature = none → p.temperature = some v →
        0 ≤ v ∧ v ≤ 2 →
        Mpipe.Mpask.resolve_temperature none env p = .ok (some v)) ∧
    (∀ (m : String) (env : Mpipe.Mpask.Env) (p : Mpipe.Config.ProfileConfig),
        ¬ Mpipe.strIsEmpty (Mpipe.strTrim m) →
        Mpipe.Mpask.resolve_model (some m) env p = .ok (Mpipe.strTrim m)) ∧
    (∀ (env : Mpipe.Mpask.Env) (p : Mpipe.Config.ProfileConfig) (raw : String),
        env.mp_model = some raw → ¬ Mpipe.strIsEmpty (Mpipe.strTrim raw) →
        Mpipe.Mpask.resolve_model none env p = .ok (Mpipe.strTrim raw)) ∧
    (∀ (env : Mpipe.Mpask.Env) (p : Mpipe.Config.ProfileConfig) (m : String),
        env.mp_model = none → p.model = some m → ¬ Mpipe.strIsEmpty (Mpipe.strTrim m) →
        Mpipe.Mpask.resolve_model none env p = .ok (Mpipe.strTrim m)) ∧
    (∀ (d : Mpipe.Config.ProviderDefaultsConfig) (p : Mpipe.Config.ProfileConfig),
        Mpipe.Config.merge_provider_defaults (some d) p =
          { provider := p.provider, model := p.model.or d.model, system := p.system.or d.system,
            temperature := p.temperature.or d.temperature,
            max_tokens := p.max_tokens.or d.max_tokens, timeout := p.timeout.or d.timeout,
            retries := p.retries.or d.retries, retry_delay := p.retry_delay.or d.retry_delay,
            output := p.output.or d.output, show_usage := p.show_usage.or d.show_usage }) ∧
    (∀ (env : Mpipe.Mpask.Env) (p : Mpipe.Config.ProfileConfig),
        env.mp_retries = none → p.retries = none →
        Mpipe.Mpask.resolve_retries none env p = .ok 0) ∧
    (∀ (env : Mpipe.Mpask.Env) (p : Mpipe.Config.ProfileConfig),
        env.mp_retry_delay = none → p.retry_delay = none →
        Mpipe.Mpask.resolve_retry_delay none env p = .ok 500) ∧
    (∀ (p : Mpipe.Config.ProfileConfig), p.output = none →
        Mpipe.Mpask.resolve_output_format none false p = .ok .text) ∧
    (∀ (env : Mpipe.Mpask.Env) (p : Mpipe.Config.ProfileConfig),
        env.mp_provider = none → p.provider = none →
        Mpipe.Mpask.resolve_provider none env p = .ok .openai) ∧
    (Mpipe.Mpask.resolve_model none Mpipe.Scenario.mixedTierEnv
        Mpipe.Scenario.mixedTierProfile = .ok "profile-model" ∧
      Mpipe.Mpask.resolve_temperature none Mpipe.Scenario.mixedTierEnv
        Mpipe.Scenario.mixedTierProfile = .ok (some (mkRat 1 2))) := by
  refine ⟨?_, ?_, ?_, ?_, ?_, ?_, ?_, ?_, ?_, ?_, ?_, by decide⟩
  · intro t env p ht
    simp [Mpipe.Mpask.resolve_temperature, ht.1, ht.2, Bind.bind, Except.bind,
      Pure.pure, Except.pure]
  · intro env p raw v he hv hr
    simp [Mpipe.Mpask.resolve_temperature, he, hv, hr.1, hr.2, Bind.bind, Except.bind,
      Pure.pure, Except.pure]
  · intro env p v he hp hr
    simp [Mpipe.Mpask.resolve_temperature, he, hp, hr.1, hr.2, Bind.bind, Except.bind,
      Pure.pure, Except.pure]
  · intro m env p hm
    simp [Mpipe.Mpask.resolve_model, hm]
  · intro env p raw he hr
    simp [Mpipe.Mpask.resolve_model, Mpipe.Mpask.resolve_model.resolve_model_env, he, hr]
  · intro env p m he hp hm
    simp [Mpipe.Mpask.resolve_model, Mpipe.Mpask.resolve_model.resolve_model_env,
      Mpipe.Mpask.resolve_model.resolve_model_profile, he, hp, hm]
  · intro d p
    rfl
  · intro env p he hp
    simp [Mpipe.Mpask.resolve_retries, he, hp]
  · intro env p he hp
    simp [Mpipe.Mpask.resolve_retry_delay, he, hp, Bind.bind, Except.bind,
      Pure.pure, Except.pure]
  · intro p hp
    simp [Mpipe.Mpask.resolve_output_format, hp]
  · intro env p he hp
    simp [Mpipe.Mpask.resolve_provider, he, hp]

/-- Witness for C5: an explicit temperature of 1 overrides the
environment's `MP_TEMPERATURE=0.5` and the profile's value. -/
theorem c5_precedence_witness :
    0 ≤ (1 : Rat) ∧ (1 : Rat) ≤ 2 ∧
    Mpipe.Mpask.resolve_temperature (some 1) Mpipe.Scenario.mixedTierEnv
      Mpipe.Scenario.mixedTierProfile = .ok (some 1) :=
  ⟨by decide, by decide,
    c5_precedence.1 1 Mpipe.Scenario.mixedTierEnv Mpipe.Scenario.mixedTierProfile
      ⟨by decide, by decide⟩⟩

/-- C6: every resolved value is validated against its domain — temperature
in [0.0, 2.0], max_tokens > 0, timeout > 0, retry_delay > 0, output one of
{text, json} case-insensitively — and a violation at any tier (explicit
flag, environment variable, or profile) makes the resolution fail, so the
run never reaches the network ask. -/
theorem c6_validation :
    (∀ (t : Rat) (env : Mpipe.Mpask.Env) (p : Mpipe.Config.ProfileConfig),
        ¬(0 ≤ t ∧ t ≤ 2) →
        Mpipe.Mpask.resolve_temperature (some t) env p = .error (.invalidTemperature t)) ∧
    (∀ (env : Mpipe.Mpask.Env) (p : Mpipe.Config.ProfileConfig) (raw : String) (v : Rat),
        env.mp_temperature = some raw →
        Mpipe.Mpask.parseDecimal (Mpipe.strTrim raw) = some v → ¬(0 ≤ v ∧ v ≤ 2) →
        Mpipe.Mpask.resolve_temperature none env p = .error (.invalidTemperature v)) ∧
    (∀ (env : Mpipe.Mpask.Env) (p : Mpipe.Config.ProfileConfig) (v : Rat),
        env.mp_temperature = none → p.temperature = some v → ¬(0 ≤ v ∧ v ≤ 2) →
        Mpipe.Mpask.resolve_temperature none env p = .error (.invalidTemperature v)) ∧
    (∀ (env : Mpipe.Mpask.Env) (p : Mpipe.Config.ProfileConfig),
        Mpipe.Mpask.resolve_max_tokens (some 0) env p = .error .invalidMaxTokens) ∧
    (∀ (env : Mpipe.Mpask.Env) (p : Mpipe.Config.ProfileConfig),
        env.mp_max_tokens = none → p.max_tokens = some 0 →
        Mpipe.Mpask.resolve_max_tokens none env p = .error .invalidMaxTokens) ∧
    (∀ (env : Mpipe.Mpask.Env) (p : Mpipe.Config.ProfileConfig),
        Mpipe.Mpask.resolve_timeout (some 0) env p = .error .invalidTimeout) ∧
    (∀ (env : Mpipe.Mpask.Env) (p : Mpipe.Config.ProfileConfig),
        Mpipe.Mpask.resolve_retry_delay (some 0) env p = .error .invalidRetryDelay) ∧
    (∀ raw : String,
        (∃ f, Mpipe.Mpask.parse_output_format raw = .ok f) ↔
          (Mpipe.strLower (Mpipe.strTrim raw) = "text" ∨
            Mpipe.strLower (Mpipe.strTrim raw) = "json")) ∧
    (∀ (cli : Mpipe.Mpask.Cli) (env : Mpipe.Mpask.Env) (config : Mpipe.Config.ConfigFile)
        (stdin : Option String) (t : Rat) (a : Mpipe.Mpask.RunAction),
        cli.temperature = some t → ¬(0 ≤ t ∧ t ≤ 2) →
        Mpipe.Mpask.run_until_network cli env config stdin ≠ .ok a) := by
  have htemp : ∀ (t : Rat) (env : Mpipe.Mpask.Env) (p : Mpipe.Config.ProfileConfig),
      ¬(0 ≤ t ∧ t ≤ 2) →
      Mpipe.Mpask.resolve_temperature (some t) env p = .error (.invalidTemperature t) := by
    intro t env p ht
    simp only [Mpipe.Mpask.resolve_temperature, Bind.bind, Except.bind, Pure.pure, Except.pure]
    rw [if_pos ht]
    rfl
  refine ⟨htemp, ?_, ?_, ?_, ?_, ?_, ?_, ?_, ?_⟩
  · intro env p raw v he hv hr
    simp only [Mpipe.Mpask.resolve_temperature, he, hv, Bind.bind, Except.bind,
      Pure.pure, Except.pure]
    rw [if_pos hr]
    rfl
  · intro env p v he hp hr
    simp only [Mpipe.Mpask.resolve_temperature, he, hp, Bind.bind, Except.bind,
      Pure.pure, Except.pure]
    rw [if_pos hr]
    rfl
  · intro env p
    simp [Mpipe.Mpask.resolve_max_tokens, Bind.bind, Except.bind, Pure.pure, Except.pure,
      throw, throwThe, MonadExceptOf.throw]
  · intro env p he hp
    simp [Mpipe.Mpask.resolve_max_tokens, he, hp, Bind.bind, Except.bind,
      Pure.pure, Except.pure, throw, throwThe, MonadExceptOf.throw]
  · intro env p
    simp [Mpipe.Mpask.resolve_timeout, Bind.bind, Except.bind, Pure.pure, Except.pure,
      throw, throwThe, MonadExceptOf.throw]
  · intro env p
    simp [Mpipe.Mpask.resolve_retry_delay, Bind.bind, Except.bind, Pure.pure, Except.pure,
      throw, throwThe, MonadExceptOf.throw]
  · intro raw
    constructor
    · rintro ⟨f, hf⟩
      by_cases h1 : Mpipe.strLower (Mpipe.strTrim raw) = "text"
      · exact Or.inl h1
      · by_cases h2 : Mpipe.strLower (Mpipe.strTrim raw) = "json"
        · exact Or.inr h2
        · simp [Mpipe.Mpask.parse_output_format, h1, h2] at hf
    · intro h
      cases h with
      | inl h => exact ⟨.text, by simp [Mpipe.Mpask.parse_output_format, h]⟩
      | inr h =>
        by_cases h1 : Mpipe.strLower (Mpipe.strTrim raw) = "text"
        · exact ⟨.text, by simp [Mpipe.Mpask.parse_output_format, h1]⟩
        · exact ⟨.json, by simp [Mpipe.Mpask.parse_output_format, h, h1]⟩
  · intro cli env config stdin t a hcli ht h
    obtain ⟨profile, _, _, _, _, _, _, _, _, _, _, _, _, h3, _⟩ :=
      Mpipe.Mpask.run_until_network_ok_shape cli env config stdin a h
    rw [hcli, htemp t env profile ht] at h3
    cases h3

/-- Witness for C6: explicit temperature 2.5 is rejected as out of domain. -/
theorem c6_validation_witness :
    ¬(0 ≤ mkRat 5 2 ∧ mkRat 5 2 ≤ 2) ∧
    Mpipe.Mpask.resolve_temperature (some (mkRat 5 2)) {} {} =
      .error (.invalidTemperature (mkRat 5 2)) :=
  ⟨by decide, c6_validation.1 (mkRat 5 2) {} {} (by decide)⟩

namespace Mpipe.Config

theorem validate_profile_fields_temp_invalid (sp : String) (fields : ValidatableFields)
    (v : Rat) (hv : fields.temperature = some v) (hr : ¬(0 ≤ v ∧ v ≤ 2)) :
    validate_profile_fields sp fields = .error (.invalidField sp "temperature") := by
  simp only [validate_profile_fields, hv, Bind.bind, Except.bind]
  rw [if_pos hr]

theorem validate_profile_temp_invalid (name : String) (p : ProfileConfig) (v : Rat)
    (hv : p.temperature = some v) (hr : ¬(0 ≤ v ∧ v ≤ 2)) :
    ∃ e, validate_profile name p = .error e := by
  have hf := validate_profile_fields_temp_invalid ("profiles." ++ name) p.fieldsView v hv hr
  cases hp : p.provider with
  | none =>
    refine ⟨.invalidField ("profiles." ++ name) "temperature", ?_⟩
    simp [validate_profile, hp, hf, Bind.bind, Except.bind, Pure.pure, Except.pure]
  | some raw =>
    cases hn : (normalized_provider_value raw).isNone
    · refine ⟨.invalidField ("profiles." ++ name) "temperature", ?_⟩
      simp [validate_profile, hp, hn, hf, Bind.bind, Except.bind, Pure.pure, Except.pure]
    · refine ⟨.invalidProfileProvider name (Mpipe.strLower (Mpipe.strTrim raw)), ?_⟩
      simp only [validate_profile, hp, Bind.bind, Except.bind]
      rw [if_pos hn]

theorem validate_providers_list_mem_invalid
    (provs : List (String × ProviderSectionConfig)) (pn : String)
    (sect : ProviderSectionConfig) (hmem : (pn, sect) ∈ provs)
    (hbad : normalized_provider_value pn = none) :
    ∃ e, validate_providers_list provs = .error e := by
  induction provs with
  | nil => cases hmem
  | cons head rest ih =>
    obtain ⟨hname, hsect⟩ := head
    cases hmem with
    | head =>
      refine ⟨.invalidProviderSection pn, ?_⟩
      simp [validate_providers_list, hbad]
    | tail _ hmem =>
      cases hnn : normalized_provider_value hname with
      | none =>
        refine ⟨.invalidProviderSection hname, ?_⟩
        simp [validate_providers_list, hnn]
      | some prov =>
        cases hd : hsect.defaults with
        | none =>
          obtain ⟨e, he⟩ := ih hmem
          exact ⟨e, by simp [validate_providers_list, hnn, hd, he]⟩
        | some d =>
          cases hv : validate_profile_fields ("providers." ++ prov ++ ".defaults") d.fieldsView with
          | error e =>
            exact ⟨e, by
              simp [validate_providers_list, hnn, hd, hv, Bind.bind, Except.bind]⟩
          | ok u =>
            obtain ⟨e, he⟩ := ih hmem
            exact ⟨e, by
              simp [validate_providers_list, hnn, hd, hv, he, Bind.bind, Except.bind]⟩

theorem validate_profiles_list_mem_temp_invalid
    (profiles : List (String × ProfileConfig)) (name : String) (p : ProfileConfig) (v : Rat)
    (hmem : (name, p) ∈ profiles) (hv : p.temperature = some v) (hr : ¬(0 ≤ v ∧ v ≤ 2)) :
    ∃ e, validate_profiles_list profiles = .error e := by
  induction profiles with
  | nil => cases hmem
  | cons head rest ih =>
    obtain ⟨hname, hprof⟩ := head
    cases hmem with
    | head =>
      obtain ⟨e, he⟩ := validate_profile_temp_invalid name p v hv hr
      exact ⟨e, by simp [validate_profiles_list, he, Bind.bind, Except.bind]⟩
    | tail _ hmem =>
      cases hvp : validate_profile hname hprof with
      | error e => exact ⟨e, by simp [validate_profiles_list, hvp, Bind.bind, Except.bind]⟩
      | ok u =>
        obtain ⟨e, he⟩ := ih hmem
        exact ⟨e, by simp [validate_profiles_list, hvp, he, Bind.bind, Except.bind]⟩

theorem validate_config_file_err_of_providers (config : ConfigFile)
    (provs : List (String × ProviderSectionConfig)) (e : ConfigError)
    (hp : config.providers = some provs) (he : validate_providers_list provs = .error e) :
    validate_config_file config = .error e := by
  simp [validate_config_file, hp, he, Bind.bind, Except.bind, Pure.pure, Except.pure]

theorem validate_config_file_err_of_profiles (config : ConfigFile)
    (profiles : List (String × ProfileConfig)) (e : ConfigError)
    (hp : config.profiles = some profiles) (he : validate_profiles_list profiles = .error e) :
    ∃ f, validate_config_file config = .error f := by
  cases hq : config.providers with
  | none =>
    exact ⟨e, by
      simp [validate_config_file, hq, hp, he, Bind.bind, Except.bind, Pure.pure, Except.pure]⟩
  | some provs =>
    cases hv : validate_providers_list provs with
    | error f =>
      exact ⟨f, by
        simp [validate_config_file, hq, hv, Bind.bind, Except.bind, Pure.pure, Except.pure]⟩
    | ok u =>
      exact ⟨e, by
        simp [validate_config_file, hq, hv, hp, he, Bind.bind, Except.bind,
          Pure.pure, Except.pure]⟩

end Mpipe.Config

/-- C7: loading the config file eagerly validates every declared profile
section and every declared provider-default section regardless of which
profile was requested: any validation error blocks loading of every
profile; an out-of-domain field in an unrelated profile blocks loading;
and a provider section whose name does not normalize to openai/fireworks
blocks loading. -/
theorem c7_eager_validation :
    (∀ (config : Mpipe.Config.ConfigFile) (e : Mpipe.Config.ConfigError),
        Mpipe.Config.validate_config_file config = .error e →
        ∀ name, Mpipe.Config.load_profile config name = .error e) ∧
    (∀ (config : Mpipe.Config.ConfigFile)
        (provs : List (String × Mpipe.Config.ProviderSectionConfig)) (pn : String)
        (sect : Mpipe.Config.ProviderSectionConfig),
        config.providers = some provs → (pn, sect) ∈ provs →
        Mpipe.Config.normalized_provider_value pn = none →
        ∀ name, ∃ e, Mpipe.Config.load_profile config name = .error e) ∧
    (∀ (config : Mpipe.Config.ConfigFile)
        (profiles : List (String × Mpipe.Config.ProfileConfig)) (pname : String)
        (p : Mpipe.Config.ProfileConfig) (v : Rat),
        config.profiles = some profiles → (pname, p) ∈ profiles →
        p.temperature = some v → ¬(0 ≤ v ∧ v ≤ 2) →
        ∀ name, ∃ e, Mpipe.Config.load_profile config name = .error e) := by
  have hload : ∀ (config : Mpipe.Config.ConfigFile) (e : Mpipe.Config.ConfigError),
      Mpipe.Config.validate_config_file config = .error e →
      ∀ name, Mpipe.Config.load_profile config name = .error e := by
    intro config e he name
    simp [Mpipe.Config.load_profile, he, Bind.bind, Except.bind]
  refine ⟨hload, ?_, ?_⟩
  · intro config provs pn sect hp hmem hbad name
    obtain ⟨e, he⟩ := Mpipe.Config.validate_providers_list_mem_invalid provs pn sect hmem hbad
    exact ⟨e, hload config e
      (Mpipe.Config.validate_config_file_err_of_providers config provs e hp he) name⟩
  · intro config profiles pname p v hp hmem hv hr name
    obtain ⟨e, he⟩ :=
      Mpipe.Config.validate_profiles_list_mem_temp_invalid profiles pname p v hmem hv hr
    obtain ⟨f, hf⟩ := Mpipe.Config.validate_config_file_err_of_profiles config profiles e hp he
    exact ⟨f, hload config f hf name⟩

/-- Witness for C7: the out-of-domain temperature in the unrelated `bad`
profile blocks loading the valid `good` profile. -/
theorem c7_eager_validation_witness :
    ∃ e, Mpipe.Config.load_profile Mpipe.Scenario.badUnrelatedProfile "good" = .error e :=
  c7_eager_validation.2.2 Mpipe.Scenario.badUnrelatedProfile
    [("good", { provider := some "openai", model := some "gpt-4o-mini" }),
     ("bad", { temperature := some (mkRat 31 10) })]
    "bad" { temperature := some (mkRat 31 10) } (mkRat 31 10)
    (by decide) (by decide) (by decide) (by decide) "good"

/-- C8: after a successful HTTP response the wire adapter parses the
provider JSON into {content, usage}; if the response carries no non-empty
assistant content, ask fails with `ProviderError::EmptyResponse`; and this
failure arises only after the retry executor has returned success, with
exactly the executor's transport calls made — it is never retried. -/
theorem c8_empty_response :
    (∀ (key : String)
        (transport : Nat → Except Mpipe.ChatRuntime.RequestErrorKind
          (Mpipe.ChatRuntime.HttpResponse Mpipe.Openai.RawBody))
        (options : Mpipe.AskOptions)
        (resp : Mpipe.ChatRuntime.HttpResponse Mpipe.Openai.RawBody)
        (body : Mpipe.Openai.ChatCompletionResponse),
        (Mpipe.ChatRuntime.send_chat_request_with_retry transport
          { timeout_secs := options.timeout_secs, retries := options.retries,
            retry_delay_ms := options.retry_delay_ms }).result = .ok resp →
        resp.body.json = some body →
        (∀ choice ∈ body.choices,
          choice.message.content.filter (fun c => !Mpipe.strIsEmpty c) = none) →
        Mpipe.Openai.ask_messages (some key) transport options =
          (.error (.emptyResponse .openai),
            (Mpipe.ChatRuntime.send_chat_request_with_retry transport
              { timeout_secs := options.timeout_secs, retries := options.retries,
                retry_delay_ms := options.retry_delay_ms }).calls)) ∧
    (∀ (key : String)
        (transport : Nat → Except Mpipe.ChatRuntime.RequestErrorKind
          (Mpipe.ChatRuntime.HttpResponse Mpipe.Openai.RawBody))
        (options : Mpipe.AskOptions) (n : Nat),
        Mpipe.Openai.ask_messages (some key) transport options =
          (.error (.emptyResponse .openai), n) →
        ∃ resp, (Mpipe.ChatRuntime.send_chat_request_with_retry transport
            { timeout_secs := options.timeout_secs, retries := options.retries,
              retry_delay_ms := options.retry_delay_ms }).result = .ok resp ∧
          n = (Mpipe.ChatRuntime.send_chat_request_with_retry transport
            { timeout_secs := options.timeout_secs, retries := options.retries,
              retry_delay_ms := options.retry_delay_ms }).calls) ∧
    (∀ (key : String)
        (transport : Nat → Except Mpipe.ChatRuntime.RequestErrorKind
          (Mpipe.ChatRuntime.HttpResponse Mpipe.Openai.RawBody))
        (options : Mpipe.AskOptions)
        (resp : Mpipe.ChatRuntime.HttpResponse Mpipe.Openai.RawBody)
        (body : Mpipe.Openai.ChatCompletionResponse) (content : String),
        (Mpipe.ChatRuntime.send_chat_request_with_retry transport
          { timeout_secs := options.timeout_secs, retries := options.retries,
            retry_delay_ms := options.retry_delay_ms }).result = .ok resp →
        resp.body.json = some body →
        (body.choices.head?.bind fun choice => choice.message.content).filter
            (fun c => !Mpipe.strIsEmpty c) = some content →
        Mpipe.Openai.ask_messages (some key) transport options =
          (.ok ⟨content, body.usage.map fun u =>
              ⟨u.prompt_tokens, u.completion_tokens, u.total_tokens⟩⟩,
            (Mpipe.ChatRuntime.send_chat_request_with_retry transport
              { timeout_secs := options.timeout_secs, retries := options.retries,
                retry_delay_ms := options.retry_delay_ms }).calls)) := by
  refine ⟨?_, ?_, ?_⟩
  · intro key transport options resp body h1 h2 hall
    have hx : (body.choices.head?.bind fun choice => choice.message.content).filter
        (fun c => !Mpipe.strIsEmpty c) = none := by
      cases hc : body.choices with
      | nil => simp
      | cons c rest =>
        have := hall c (by rw [hc]; exact List.mem_cons_self c rest)
        simp [this]
    simp [Mpipe.Openai.ask_messages, h1, h2, hx]
  · intro key transport options n h
    cases hres : (Mpipe.ChatRuntime.send_chat_request_with_retry transport
        { timeout_secs := options.timeout_secs, retries := options.retries,
          retry_delay_ms := options.retry_delay_ms }).result with
    | error f =>
      cases f <;> simp [Mpipe.Openai.ask_messages, hres] at h
    | ok resp =>
      cases hj : resp.body.json with
      | none => simp [Mpipe.Openai.ask_messages, hres, hj] at h
      | some body =>
        cases hf : (body.choices.head?.bind fun choice => choice.message.content).filter
            (fun c => !Mpipe.strIsEmpty c) with
        | none =>
          refine ⟨resp, rfl, ?_⟩
          simp [Mpipe.Openai.ask_messages, hres, hj, hf] at h
          exact h.symm
        | some c => simp [Mpipe.Openai.ask_messages, hres, hj, hf] at h
  · intro key transport options resp body content h1 h2 h3
    simp [Mpipe.Openai.ask_messages, h1, h2, h3]

/-- Witness for C8: a 200 response whose only choice has empty content
yields `EmptyResponse` after the executor's single successful call. -/
theorem c8_empty_response_witness :
    Mpipe.Openai.ask_messages (some "k") Mpipe.Scenario.emptyContentTransport {} =
      (.error (.emptyResponse .openai),
        (Mpipe.ChatRuntime.send_chat_request_with_retry Mpipe.Scenario.emptyContentTransport
          { timeout_secs := ({} : Mpipe.AskOptions).timeout_secs,
            retries := ({} : Mpipe.AskOptions).retries,
            retry_delay_ms := ({} : Mpipe.AskOptions).retry_delay_ms }).calls) :=
  c8_empty_response.1 "k" Mpipe.Scenario.emptyContentTransport {}
    ⟨200, Mpipe.Scenario.emptyContentBody⟩
    { choices := [{ message := { content := some "" } }] }
    (by decide) (by decide) (by decide)
